import Mathlib

/-!
Verification of the tick-identity resolution and throttled aggregation engine
of the dt4 bot (`bot_auto_resolve.py`, `dhanhq_security_ids.py`).

The Python code is shallowly embedded: Python values occurring in ticks become
the inductive `PyVal`; Python dicts become association lists; the mutable
globals `latest` and `_last_sent` become an explicit `BotState` threaded
through the functions; the Telegram send becomes an `Except String Unit`
parameter (`Except.error` models the send raising an exception); log output
is returned explicitly as a list of strings.  Wall-clock times are rationals.
-/

namespace DhanBot

/-- A Python value as it can occur in an inbound tick record:
`None`, an int, a float, a string, or a nested dict. -/
inductive PyVal where
  | vnone : PyVal
  | vint (n : ℤ) : PyVal
  | vfloat (q : ℚ) : PyVal
  | vstr (s : String) : PyVal
  | vdict (fields : List (String × PyVal)) : PyVal

/-- A tick record: a Python dict, modelled as an association list
(keys are unique in a Python dict; lookup takes the first binding). -/
abbrev Tick := List (String × PyVal)

/-- Python `v is None`. -/
def PyVal.isNone : PyVal → Bool
  | .vnone => true
  | _ => false

/-- Tests whether `v` is a dict, returning its fields (models `isinstance(v, dict)`). -/
def PyVal.asDict : PyVal → Option Tick
  | .vdict d => some d
  | _ => none

/-- Dict lookup: `d[k]` when `k in d`, else absent. -/
def pyGet (d : Tick) (k : String) : Option PyVal :=
  (d.find? (fun p => p.1 == k)).map (fun p => p.2)

/-- Embedding of `k in d and d[k] is not None`: the value of `k` when present and non-`None`. -/
def getNonNull (d : Tick) (k : String) : Option PyVal :=
  match pyGet d k with
  | some v => if v.isNone then none else some v
  | none => none

/-- Model of Python `str(v)`.  Exact for `None`, ints and strings (the only
cases the code reaches with identity fields); the float and dict renderings
are approximations, never consulted by any property below. -/
def PyVal.pyStr : PyVal → String
  | .vnone => "None"
  | .vint n => toString n
  | .vfloat q => toString q
  | .vstr s => s
  | .vdict _ => "<dict>"

/-- All of `cs` are decimal digit characters and `cs` is non-empty. -/
def isDigits (cs : List Char) : Bool :=
  !cs.isEmpty && cs.all (fun c => c.isDigit)

/-- The natural number denoted by a digit string. -/
def digitsToNat (cs : List Char) : ℕ :=
  cs.foldl (fun a c => a * 10 + (c.toNat - 48)) 0

/-- Parse an unsigned decimal literal, as Python `float` accepts it:
`"12"`, `"12.5"`, `"12."`, `".5"` (at most one dot, digits elsewhere, at
least one digit overall). -/
def parseUnsigned (s : String) : Option ℚ :=
  let cs := s.toList
  if cs.count '.' = 0 then
    if isDigits cs then some ((digitsToNat cs : ℚ)) else none
  else if cs.count '.' = 1 then
    let av := cs.takeWhile (fun c => c != '.')
    let bv := (cs.dropWhile (fun c => c != '.')).drop 1
    if (isDigits av || av.isEmpty) && (isDigits bv || bv.isEmpty)
        && !(av.isEmpty && bv.isEmpty) then
      some ((digitsToNat av : ℚ) + (digitsToNat bv : ℚ) / ((10 : ℚ) ^ bv.length))
    else none
  else none

/-- Model of Python `float(s)` on a string: sign followed by a decimal
literal.  (Python additionally accepts surrounding whitespace, exponents,
underscores and inf/nan spellings; those forms are modelled as failures —
no property below evaluates them.) -/
def parseFloatStr (s : String) : Option ℚ :=
  match s.toList with
  | '-' :: rest => (parseUnsigned (String.mk rest)).map (fun q => -q)
  | '+' :: rest => parseUnsigned (String.mk rest)
  | _ => parseUnsigned s

/-- Model of Python `float(v)`: succeeds on ints, floats and numeric
strings, raises (here: `none`) on `None`, dicts and non-numeric strings. -/
def PyVal.pyFloat : PyVal → Option ℚ
  | .vint n => some ((n : ℚ))
  | .vfloat q => some q
  | .vstr s => parseFloatStr s
  | _ => none

/-- Model of the f-string `f"{x:.2f}"`: decimal rendering with exactly two
fractional digits.  (Rounding of exact ties is half-up here where Python
rounds the underlying binary float; no property below depends on ties.) -/
def fmt2 (q : ℚ) : String :=
  let n : ℤ := ⌊q * 100 + 1 / 2⌋
  let a := n.natAbs
  let sign := if n < 0 then "-" else ""
  let fp := a % 100
  sign ++ toString (a / 100) ++ "." ++ (if fp < 10 then "0" else "") ++ toString fp

/-- The price-field aliases tried by `extract_ltp_from_tick`, in priority
order (`candidates` in the source). -/
def ltpCandidates : List String :=
  ["LTP", "ltp", "last_price", "lastPrice", "lastPriceTicks", "last"]

/-- First candidate key of `keys` present in `d` with a non-`None` value
(the `for k in candidates` loops of the source). -/
def firstHit (keys : List String) (d : Tick) : Option PyVal :=
  keys.findSome? (getNonNull d)

/-- Embedding of `extract_ltp_from_tick` (bot_auto_resolve.py:96-110): try the alias
list at top level; if that fully misses, and `tick["data"]` is a dict, try
the same alias list there; else `None`. -/
def extract_ltp_from_tick (tick : Tick) : Option PyVal :=
  match firstHit ltpCandidates tick with
  | some v => some v
  | none =>
    match pyGet tick "data" with
    | some (PyVal.vdict d) => firstHit ltpCandidates d
    | _ => none

/-- Top-level security-id aliases (bot_auto_resolve.py:183). -/
def sidKeysTop : List String :=
  ["SecurityId", "securityId", "SecurityID", "securityID", "security_id", "sid"]

/-- Nested security-id aliases (bot_auto_resolve.py:190,195). -/
def sidKeysNested : List String := ["securityId", "SecurityId", "sid"]

/-- First key of `keys` merely present in `d` (the nested id loops check
`k in d` without a non-`None` test), converted with `str(...)`. -/
def firstPresent (keys : List String) (d : Tick) : Option PyVal :=
  keys.findSome? (pyGet d)

/-- The security-id extraction of `_on_tick` (bot_auto_resolve.py:182-198):
top-level aliases requiring a non-`None` value, then the nested aliases
under `"instrument"`, then under `"data"`; the found value is passed
through `str(...)`. -/
def extractSid (tick : Tick) : Option String :=
  match firstHit sidKeysTop tick with
  | some v => some v.pyStr
  | none =>
    match (pyGet tick "instrument").bind PyVal.asDict with
    | some d =>
      match firstPresent sidKeysNested d with
      | some v => some v.pyStr
      | none => dataSid tick
    | none => dataSid tick
where
  /-- The `"data"` fallback (bot_auto_resolve.py:194-198). -/
  dataSid (tick : Tick) : Option String :=
    match (pyGet tick "data").bind PyVal.asDict with
    | some d => (firstPresent sidKeysNested d).map PyVal.pyStr
    | none => none

/-- A resolved-registry entry: `{"seg": ..., "sid": ...}` where either field
may be Python `None` (both are, for unresolved symbols). -/
structure Info where
  seg : Option String
  sid : Option String
deriving DecidableEq

/-- The three category lookup tables imported from `dhanhq_security_ids.py`
(association lists standing for the Python dicts). -/
structure Tables where
  indices_nse : List (String × String)
  indices_bse : List (String × String)
  nifty50 : List (String × String)

/-- String-table lookup, `t.get(k)`. -/
def tblGet (t : List (String × String)) (k : String) : Option String :=
  (t.find? (fun p => p.1 == k)).map (fun p => p.2)

/-- Table `INDICES_NSE` of dhanhq_security_ids.py. -/
def INDICES_NSE : List (String × String) :=
  [("NIFTY 50", "13"), ("NIFTY BANK", "25"), ("BANKNIFTY", "25")]

/-- Table `INDICES_BSE` of dhanhq_security_ids.py. -/
def INDICES_BSE : List (String × String) := [("SENSEX", "51")]

/-- Table `NIFTY50_STOCKS` of dhanhq_security_ids.py. -/
def NIFTY50_STOCKS : List (String × String) :=
  [("TATAMOTORS", "3456"), ("RELIANCE", "2885"), ("TCS", "11536")]

/-- The tables as imported by bot_auto_resolve.py. -/
def theTables : Tables := ⟨INDICES_NSE, INDICES_BSE, NIFTY50_STOCKS⟩

/-- The `SYMBOLS` list (bot_auto_resolve.py:52-59): the tracked (display name,
category) pairs, in declared order. -/
def SYMBOLS : List (String × String) :=
  [("NIFTY 50", "indices_nse"), ("NIFTY BANK", "indices_nse"),
   ("SENSEX", "indices_bse"), ("TATAMOTORS", "nifty50"),
   ("RELIANCE", "nifty50"), ("TCS", "nifty50")]

/-- One iteration of the loop of `resolve_symbols_list`
(bot_auto_resolve.py:70-81): pick the table for the declared category and
look the display name up; the second component is the category's segment
tag. -/
def resolveOne (tables : Tables) (name kind : String) : Option String × String :=
  if kind == "indices_nse" then (tblGet tables.indices_nse name, "NSE_INDEX")
  else if kind == "indices_bse" then (tblGet tables.indices_bse name, "BSE_INDEX")
  else (tblGet tables.nifty50 name, "NSE_EQ")

/-- The registry entry `resolve_symbols_list` stores for one symbol
(bot_auto_resolve.py:82-88): `{"seg": seg, "sid": sid}` when the lookup
produced a truthy id, `{"seg": None, "sid": None}` otherwise. -/
def resolveEntry (tables : Tables) (name kind : String) : Info :=
  match resolveOne tables name kind with
  | (some sid, seg) => if sid = "" then ⟨none, none⟩ else ⟨some seg, some sid⟩
  | (none, _) => ⟨none, none⟩

/-- Embedding of `resolve_symbols_list` (bot_auto_resolve.py:62-89), parametrised by the
lookup tables (which arrive by import, with a documented fallback) and the
symbol list.  Returns `(instruments, resolved_map, logs)`. -/
def resolve_symbols_list (tables : Tables) :
    List (String × String) → List (String × String) × List (String × Info) × List String
  | [] => ([], [], [])
  | (name, kind) :: rest =>
    let r := resolveOne tables name kind
    let t := resolve_symbols_list tables rest
    match r with
    | (some sid, seg) =>
      if sid = "" then
        (t.1, (name, ⟨none, none⟩) :: t.2.1, ("Could not resolve " ++ name) :: t.2.2)
      else
        ((seg, sid) :: t.1, (name, ⟨some seg, some sid⟩) :: t.2.1,
          ("Resolved " ++ name ++ " -> " ++ seg ++ ":" ++ sid) :: t.2.2)
    | (none, _) =>
      (t.1, (name, ⟨none, none⟩) :: t.2.1, ("Could not resolve " ++ name) :: t.2.2)

/-- The registry the running program builds from its static configuration. -/
def theRegistry : List (String × Info) :=
  (resolve_symbols_list theTables SYMBOLS).2.1

/-- One entry of the `latest` store (bot_auto_resolve.py:222-224):
`{"ltp": <value or None>, "raw": tick}`. -/
structure LatestEntry where
  ltp : PyVal
  raw : Tick

/-- The mutable globals of the module: the `latest` dict and `_last_sent`. -/
structure BotState where
  latest : List (String × LatestEntry)
  lastSent : ℚ

/-- Python dict assignment `d[k] = v`: replace in place when the key
exists, append otherwise. -/
def dictSet (d : List (String × LatestEntry)) (k : String) (v : LatestEntry) :
    List (String × LatestEntry) :=
  if d.any (fun p => p.1 == k) then d.map (fun p => if p.1 == k then (k, v) else p)
  else d ++ [(k, v)]

/-- Lookup `latest.get(name)`. -/
def getEntry (d : List (String × LatestEntry)) (k : String) : Option LatestEntry :=
  (d.find? (fun p => p.1 == k)).map (fun p => p.2)

/-- The configuration the module reads at import time: `POLL_INTERVAL`,
whether a Telegram bot is configured (`tg_bot is not None`), and the
resolved registry (global `resolved_map`). -/
structure Config where
  pollInterval : ℤ
  tgConfigured : Bool
  resolvedMap : List (String × Info)

/-- Embedding of `info.get("seg") or ""` (bot_auto_resolve.py:244). -/
def segStr (info : Info) : String :=
  match info.seg with
  | some s => s
  | none => ""

/-- One snapshot line (bot_auto_resolve.py:246-254): price formatted via
`float(...)` and `:.2f` when that conversion succeeds, the raw `str` form
when it raises, and `"(No Data)"` when there is no entry or its price is
`None`. -/
def renderLine (latest : List (String × LatestEntry)) (name : String) (info : Info) :
    String :=
  match getEntry latest name with
  | some val =>
    if val.ltp.isNone then name ++ " (" ++ segStr info ++ "): (No Data)"
    else
      match val.ltp.pyFloat with
      | some q => name ++ " (" ++ segStr info ++ "): " ++ fmt2 q
      | none => name ++ " (" ++ segStr info ++ "): " ++ val.ltp.pyStr
  | none => name ++ " (" ++ segStr info ++ "): (No Data)"

/-- The full message text (bot_auto_resolve.py:239-255): header line
followed by one line per registry entry, in the registry's order, joined
with newlines.  `ts` is the rendered wall-clock timestamp. -/
def renderText (ts : String) (rm : List (String × Info))
    (latest : List (String × LatestEntry)) : String :=
  String.intercalate "\n"
    (("LTP Update â€¢ " ++ ts) :: rm.map (fun p => renderLine latest p.1 p.2))

/-- The interval the throttle gate actually applies:
`max(10, POLL_INTERVAL)` (bot_auto_resolve.py:235). -/
def effInterval (cfg : Config) : ℚ := ((max 10 cfg.pollInterval : ℤ) : ℚ)

/-- Embedding of `_maybe_send_telegram_update` (bot_auto_resolve.py:232-263).  Returns
the new state, the text handed to the Telegram bot (`none` when the gate
rejects or no bot is configured), and the log lines.  The `notifier`
argument models the outcome of `tg_bot.send_message`: `Except.error`
stands for the call raising, which the source catches and logs. -/
def maybeSend (cfg : Config) (notifier : Except String Unit) (ts : String)
    (now : ℚ) (s : BotState) : BotState × Option String × List String :=
  if now - s.lastSent < effInterval cfg then (s, none, [])
  else
    let s2 : BotState := { s with lastSent := now }
    let text := renderText ts cfg.resolvedMap s.latest
    if cfg.tgConfigured then
      match notifier with
      | Except.ok _ => (s2, some text, ["Telegram update sent."])
      | Except.error e => (s2, some text, ["Failed to send Telegram message: " ++ e])
    else (s2, none, ["Telegram token not configured; skipping send."])

/-- The registry scan of `_on_tick` (bot_auto_resolve.py:205-209):
first entry whose `sid` field equals the extracted id (Python
`info.get("sid") == sid`; a `None` sid never equals a string). -/
def findDisp (rm : List (String × Info)) (sid : String) : Option String :=
  (rm.find? (fun p => p.2.sid == some sid)).map (fun p => p.1)

/-- Embedding of `_on_tick` (bot_auto_resolve.py:178-228).  The whole body is wrapped in
`try/except` in the source; every step of this model is total (the one
raising operation, the Telegram send, is already caught inside
`_maybe_send_telegram_update`), so the handler contributes nothing here. -/
def onTick (cfg : Config) (notifier : Except String Unit) (ts : String)
    (now : ℚ) (tick : Tick) (s : BotState) : BotState × Option String × List String :=
  match extractSid tick with
  | none => (s, none, [])
  | some sid =>
    let disp := findDisp cfg.resolvedMap sid
    -- the source repeats the identical scan when the first one missed
    -- (bot_auto_resolve.py:211-216); it yields the same result
    let disp2 := match disp with
      | none => findDisp cfg.resolvedMap sid
      | some d => some d
    let ltp := extract_ltp_from_tick tick
    match disp2 with
    | some d =>
      if d = "" then (s, none, [])
      else
        let s2 : BotState := { s with latest := dictSet s.latest d ⟨ltp.getD .vnone, tick⟩ }
        maybeSend cfg notifier ts now s2
    | none => (s, none, [])

/-- Fold a sequence of `_maybe_send_telegram_update` calls (each with its
wall-clock time, send outcome and timestamp string) over the state,
collecting the times of the calls that handed a message to the Telegram
bot. -/
def runSends (cfg : Config) : BotState → List (ℚ × Except String Unit × String) → List ℚ
  | _, [] => []
  | s, (now, nf, ts) :: rest =>
    let r := maybeSend cfg nf ts now s
    match r.2.1 with
    | some _ => now :: runSends cfg r.1 rest
    | none => runSends cfg r.1 rest

/-! Helper lemmas. -/

lemma findSome?_eq_none_of_forall {α β : Type} (f : α → Option β) :
    ∀ l : List α, (∀ a ∈ l, f a = none) → l.findSome? f = none := by
  intro l
  induction l with
  | nil => intro _; rfl
  | cons a l ih =>
    intro h
    have ha : f a = none := h a (by simp)
    simp only [List.findSome?, ha]
    exact ih (fun x hx => h x (by simp [hx]))

lemma findSome?_eq_of_get {α β : Type} (f : α → Option β) :
    ∀ (l : List α) (i : ℕ) (hi : i < l.length) (v : β),
      f (l.get ⟨i, hi⟩) = some v →
      (∀ j (hj : j < i), f (l.get ⟨j, lt_trans hj hi⟩) = none) →
      l.findSome? f = some v := by
  intro l
  induction l with
  | nil => intro i hi; simp at hi
  | cons a l ih =>
    intro i hi v hv hprev
    cases i with
    | zero =>
      simp only [List.get] at hv
      simp only [List.findSome?, hv]
    | succ n =>
      have ha : f a = none := hprev 0 (Nat.succ_pos n)
      simp only [List.findSome?, ha]
      exact ih n (by simpa using hi) v (by simpa using hv)
        (fun j hj => by
          have := hprev (j + 1) (Nat.succ_lt_succ hj)
          simpa using this)

lemma find?_eq_of_get {α : Type} (p : α → Bool) :
    ∀ (l : List α) (i : ℕ) (hi : i < l.length),
      p (l.get ⟨i, hi⟩) = true →
      (∀ j (hj : j < i), p (l.get ⟨j, lt_trans hj hi⟩) = false) →
      l.find? p = some (l.get ⟨i, hi⟩) := by
  intro l
  induction l with
  | nil => intro i hi; simp at hi
  | cons a l ih =>
    intro i hi hp hprev
    cases i with
    | zero =>
      simp only [List.get] at hp ⊢
      simp [List.find?, hp]
    | succ n =>
      have ha : p a = false := hprev 0 (Nat.succ_pos n)
      simp only [List.get, List.find?, ha]
      exact ih n (by simpa using hi) (by simpa using hp)
        (fun j hj => by
          have := hprev (j + 1) (Nat.succ_lt_succ hj)
          simpa using this)

lemma find?_eq_none_of_forall {α : Type} (p : α → Bool) :
    ∀ l : List α, (∀ a ∈ l, p a = false) → l.find? p = none := by
  intro l
  induction l with
  | nil => intro _; rfl
  | cons a l ih =>
    intro h
    have ha : p a = false := h a (by simp)
    simp only [List.find?, ha]
    exact ih (fun x hx => h x (by simp [hx]))

lemma maybeSend_eq_of_lt {cfg : Config} {nf : Except String Unit} {ts : String}
    {now : ℚ} {s : BotState} (h : now - s.lastSent < effInterval cfg) :
    maybeSend cfg nf ts now s = (s, none, []) := by
  simp [maybeSend, h]

lemma maybeSend_state_of_ge {cfg : Config} {nf : Except String Unit} {ts : String}
    {now : ℚ} {s : BotState} (h : ¬ now - s.lastSent < effInterval cfg) :
    (maybeSend cfg nf ts now s).1 = { s with lastSent := now } := by
  simp only [maybeSend, if_neg h]
  cases hc : cfg.tgConfigured
  · simp
  · cases nf <;> simp

lemma maybeSend_event_of_ge {cfg : Config} {nf : Except String Unit} {ts : String}
    {now : ℚ} {s : BotState} (h : ¬ now - s.lastSent < effInterval cfg) :
    (maybeSend cfg nf ts now s).2.1 =
      if cfg.tgConfigured then some (renderText ts cfg.resolvedMap s.latest)
      else none := by
  simp only [maybeSend, if_neg h]
  cases hc : cfg.tgConfigured
  · simp
  · cases nf <;> simp

lemma maybeSend_latest (cfg : Config) (nf : Except String Unit) (ts : String)
    (now : ℚ) (s : BotState) :
    (maybeSend cfg nf ts now s).1.latest = s.latest := by
  by_cases h : now - s.lastSent < effInterval cfg
  · rw [maybeSend_eq_of_lt h]
  · rw [maybeSend_state_of_ge h]

lemma effInterval_nonneg (cfg : Config) : 0 ≤ effInterval cfg := by
  unfold effInterval
  have : (0 : ℤ) ≤ max 10 cfg.pollInterval := le_trans (by norm_num) (le_max_left _ _)
  exact_mod_cast this

lemma pollInterval_le_effInterval (cfg : Config) :
    ((cfg.pollInterval : ℤ) : ℚ) ≤ effInterval cfg := by
  unfold effInterval
  exact_mod_cast le_max_right (10 : ℤ) cfg.pollInterval

lemma find?_map_replace (k : String) (v : LatestEntry) :
    ∀ d : List (String × LatestEntry),
      (d.map (fun p => if p.1 == k then (k, v) else p)).find? (fun p => p.1 == k) =
        if d.any (fun p => p.1 == k) then some (k, v) else none := by
  intro d
  induction d with
  | nil => rfl
  | cons a d ih =>
    simp only [List.map_cons, List.any_cons]
    by_cases ha : (a.1 == k) = true
    · rw [if_pos ha, List.find?_cons_of_pos _ (by simp), if_pos (by simp [ha])]
    · have ha2 : (a.1 == k) = false := by simpa using ha
      rw [if_neg ha, List.find?_cons_of_neg (p := fun q : String × LatestEntry => q.1 == k) _ ha, ih]
      have hb : (a.1 == k || d.any fun p => p.1 == k) = (d.any fun p => p.1 == k) := by
        rw [ha2, Bool.false_or]
      simp only [hb]

lemma getEntry_dictSet_self (d : List (String × LatestEntry)) (k : String)
    (v : LatestEntry) : getEntry (dictSet d k v) k = some v := by
  unfold dictSet getEntry
  by_cases hany : d.any (fun p => p.1 == k)
  · rw [if_pos hany, find?_map_replace, if_pos hany]
    rfl
  · rw [if_neg hany]
    have hnone : d.find? (fun p => p.1 == k) = none := by
      apply find?_eq_none_of_forall
      intro a hax
      by_contra hc
      exact hany (List.any_eq_true.mpr ⟨a, hax, by simpa using hc⟩)
    rw [List.find?_append, hnone]
    simp [List.find?]

lemma runSends_cons (cfg : Config) (s : BotState) (now : ℚ)
    (nf : Except String Unit) (ts : String)
    (rest : List (ℚ × Except String Unit × String)) :
    runSends cfg s ((now, nf, ts) :: rest) =
      if now - s.lastSent < effInterval cfg then runSends cfg s rest
      else if cfg.tgConfigured then
        now :: runSends cfg { s with lastSent := now } rest
      else runSends cfg { s with lastSent := now } rest := by
  by_cases hg : now - s.lastSent < effInterval cfg
  · rw [if_pos hg]
    simp only [runSends, maybeSend_eq_of_lt hg]
  · rw [if_neg hg]
    simp only [runSends]
    rw [@maybeSend_event_of_ge cfg nf ts now s hg, @maybeSend_state_of_ge cfg nf ts now s hg]
    by_cases hc : cfg.tgConfigured = true
    · rw [if_pos hc, if_pos hc]
    · rw [if_neg hc, if_neg hc]

lemma runSends_lb (cfg : Config) :
    ∀ (calls : List (ℚ × Except String Unit × String)) (s : BotState),
      ∀ t ∈ runSends cfg s calls, s.lastSent + effInterval cfg ≤ t := by
  intro calls
  induction calls with
  | nil => intro s t ht; simp [runSends] at ht
  | cons c rest ih =>
    obtain ⟨now, nf, ts⟩ := c
    intro s t ht
    rw [runSends_cons] at ht
    by_cases hg : now - s.lastSent < effInterval cfg
    · rw [if_pos hg] at ht
      exact ih s t ht
    · rw [if_neg hg] at ht
      have hnow : s.lastSent + effInterval cfg ≤ now := by
        have := not_lt.mp hg
        linarith
      have hstep : ∀ u ∈ runSends cfg { s with lastSent := now } rest,
          s.lastSent + effInterval cfg ≤ u := by
        intro u hu
        have hlb := ih { s with lastSent := now } u hu
        have h1 : ({ s with lastSent := now } : BotState).lastSent = now := rfl
        rw [h1] at hlb
        have h0 := effInterval_nonneg cfg
        linarith
      by_cases hc : cfg.tgConfigured = true
      · rw [if_pos hc] at ht
        rcases List.mem_cons.mp ht with h | h
        · exact h ▸ hnow
        · exact hstep t h
      · rw [if_neg hc] at ht
        exact hstep t ht

/-- Claim C1 (confirmed): for any sequence of calls to the throttled emit
operation `_maybe_send_telegram_update`, the wall-clock gap between any
two calls that actually hand a message to the Notifier is at least the
configured `POLL_INTERVAL` (the gate compares against
`max(10, POLL_INTERVAL)`, which is at least `POLL_INTERVAL`). -/
theorem throttle_min_gap (cfg : Config) (s : BotState)
    (calls : List (ℚ × Except String Unit × String)) :
    (runSends cfg s calls).Pairwise
      (fun a b => ((cfg.pollInterval : ℤ) : ℚ) ≤ b - a) := by
  induction calls generalizing s with
  | nil => simp [runSends]
  | cons c rest ih =>
    obtain ⟨now, nf, ts⟩ := c
    rw [runSends_cons]
    by_cases hg : now - s.lastSent < effInterval cfg
    · rw [if_pos hg]; exact ih s
    · rw [if_neg hg]
      by_cases hc : cfg.tgConfigured = true
      · rw [if_pos hc]
        refine List.Pairwise.cons ?_ (ih _)
        intro b hb
        have hlb := runSends_lb cfg rest { s with lastSent := now } b hb
        have h1 : ({ s with lastSent := now } : BotState).lastSent = now := rfl
        rw [h1] at hlb
        have h2 := pollInterval_le_effInterval cfg
        linarith
      · rw [if_neg hc]
        exact ih _

/-- Claim C2 counterexample: with `POLL_INTERVAL = 5`, a call at `now = 7`
with `lastEmitted = 0` satisfies `now - lastEmitted ≥ minIntervalSeconds`,
yet the operation is a no-op (it neither sets `lastEmitted` nor touches
the Notifier), because the code gates on `max(10, POLL_INTERVAL) = 10`. -/
theorem gate_not_pollInterval :
    ((5 : ℚ) ≤ 7 - 0) ∧
    (maybeSend ⟨5, true, []⟩ (Except.ok ()) "ts" 7 ⟨[], 0⟩).1.lastSent = 0 ∧
    (maybeSend ⟨5, true, []⟩ (Except.ok ()) "ts" 7 ⟨[], 0⟩).2.1 = none := by
  have h : (7 : ℚ) - (⟨[], 0⟩ : BotState).lastSent < effInterval ⟨5, true, []⟩ := by
    norm_num [effInterval]
  refine ⟨by norm_num, ?_, ?_⟩ <;> rw [maybeSend_eq_of_lt h]

/-- Claim C2 as amended: the gate compares `now - lastEmitted` against
`max(10, POLL_INTERVAL)` (not `POLL_INTERVAL` itself).  Below that
threshold the emit is a complete no-op; at or above it, `lastEmitted` is
set to `now` — for every send outcome, i.e. before/independently of the
send — the store is untouched, and when a Telegram bot is configured the
rendered snapshot is handed to it. -/
theorem maybeSend_policy (cfg : Config) (nf : Except String Unit) (ts : String)
    (now : ℚ) (s : BotState) :
    (now - s.lastSent < effInterval cfg → maybeSend cfg nf ts now s = (s, none, [])) ∧
    (effInterval cfg ≤ now - s.lastSent →
      (maybeSend cfg nf ts now s).1.lastSent = now ∧
      (maybeSend cfg nf ts now s).1.latest = s.latest ∧
      (cfg.tgConfigured = true →
        (maybeSend cfg nf ts now s).2.1 =
          some (renderText ts cfg.resolvedMap s.latest))) := by
  constructor
  · intro h; exact maybeSend_eq_of_lt h
  · intro h
    have hg : ¬ now - s.lastSent < effInterval cfg := not_lt.mpr h
    refine ⟨?_, ?_, ?_⟩
    · rw [@maybeSend_state_of_ge cfg nf ts now s hg]
    · rw [@maybeSend_state_of_ge cfg nf ts now s hg]
    · intro hc
      rw [@maybeSend_event_of_ge cfg nf ts now s hg, if_pos hc]

/-- Witness for `maybeSend_policy`: both branches exercised at concrete
inputs (`POLL_INTERVAL = 60`; a call at 5 s is a no-op, a call at 100 s
emits and stamps the clock). -/
theorem maybeSend_policy_witness :
    maybeSend ⟨60, true, []⟩ (Except.ok ()) "ts" 5 ⟨[], 0⟩ = (⟨[], 0⟩, none, []) ∧
    (maybeSend ⟨60, true, []⟩ (Except.ok ()) "ts" 100 ⟨[], 0⟩).1.lastSent = 100 := by
  constructor
  · exact (maybeSend_policy ⟨60, true, []⟩ (Except.ok ()) "ts" 5 ⟨[], 0⟩).1
      (by norm_num [effInterval])
  · exact ((maybeSend_policy ⟨60, true, []⟩ (Except.ok ()) "ts" 100 ⟨[], 0⟩).2
      (by norm_num [effInterval])).1

/-- Claim C3 (confirmed): a Notifier send failure is swallowed — the
resulting state (so in particular `lastEmitted`, which is never rolled
back) and the single attempted hand-off are identical to the success
case, both for `_maybe_send_telegram_update` itself and for the whole
tick callback; only the log line differs, and no exception escapes (the
model is a total function in both cases). -/
theorem send_failure_swallowed (cfg : Config) (ts : String) (now : ℚ)
    (s : BotState) (e : String) (tick : Tick) :
    ((maybeSend cfg (Except.error e) ts now s).1 =
        (maybeSend cfg (Except.ok ()) ts now s).1 ∧
      (maybeSend cfg (Except.error e) ts now s).2.1 =
        (maybeSend cfg (Except.ok ()) ts now s).2.1) ∧
    ((onTick cfg (Except.error e) ts now tick s).1 =
        (onTick cfg (Except.ok ()) ts now tick s).1 ∧
      (onTick cfg (Except.error e) ts now tick s).2.1 =
        (onTick cfg (Except.ok ()) ts now tick s).2.1) := by
  have hm : ∀ (s2 : BotState),
      (maybeSend cfg (Except.error e) ts now s2).1 =
        (maybeSend cfg (Except.ok ()) ts now s2).1 ∧
      (maybeSend cfg (Except.error e) ts now s2).2.1 =
        (maybeSend cfg (Except.ok ()) ts now s2).2.1 := by
    intro s2
    by_cases hg : now - s2.lastSent < effInterval cfg
    · rw [maybeSend_eq_of_lt hg, maybeSend_eq_of_lt hg]
      exact ⟨rfl, rfl⟩
    · constructor
      · rw [@maybeSend_state_of_ge cfg (Except.error e) ts now s2 hg,
          @maybeSend_state_of_ge cfg (Except.ok ()) ts now s2 hg]
      · rw [@maybeSend_event_of_ge cfg (Except.error e) ts now s2 hg,
          @maybeSend_event_of_ge cfg (Except.ok ()) ts now s2 hg]
  refine ⟨hm s, ?_⟩
  unfold onTick
  cases hs : extractSid tick with
  | none => exact ⟨rfl, rfl⟩
  | some sid =>
    cases hd : findDisp cfg.resolvedMap sid with
    | none => simp [hd]
    | some d =>
      simp only [hd]
      by_cases hne : d = ""
      · rw [if_pos hne, if_pos hne]
        exact ⟨rfl, rfl⟩
      · rw [if_neg hne, if_neg hne]
        exact hm _

/-- Claim C4 (confirmed): price extraction returns the first non-null hit in
the fixed alias priority order at top level; the nested search (under the
container key `"data"`, the one the code supports) is attempted only when
the top-level search fully misses, again first non-null hit in alias
order; a tick with no alias present (or all present aliases null) in
either tier yields absent. -/
theorem extractPrice_spec (tick : Tick) :
    (∀ (i : ℕ) (hi : i < ltpCandidates.length) (v : PyVal),
        getNonNull tick (ltpCandidates.get ⟨i, hi⟩) = some v →
        (∀ (j : ℕ) (hj : j < i),
          getNonNull tick (ltpCandidates.get ⟨j, lt_trans hj hi⟩) = none) →
        extract_ltp_from_tick tick = some v) ∧
    ((∀ k ∈ ltpCandidates, getNonNull tick k = none) →
      (∀ d, pyGet tick "data" = some (PyVal.vdict d) →
        (∀ (i : ℕ) (hi : i < ltpCandidates.length) (v : PyVal),
            getNonNull d (ltpCandidates.get ⟨i, hi⟩) = some v →
            (∀ (j : ℕ) (hj : j < i),
              getNonNull d (ltpCandidates.get ⟨j, lt_trans hj hi⟩) = none) →
            extract_ltp_from_tick tick = some v) ∧
        ((∀ k ∈ ltpCandidates, getNonNull d k = none) →
            extract_ltp_from_tick tick = none)) ∧
      ((pyGet tick "data").bind PyVal.asDict = none →
        extract_ltp_from_tick tick = none)) := by
  constructor
  · intro i hi v hv hprev
    have h1 : firstHit ltpCandidates tick = some v :=
      findSome?_eq_of_get _ _ i hi v hv hprev
    simp [extract_ltp_from_tick, h1]
  · intro hall
    have h0 : firstHit ltpCandidates tick = none :=
      findSome?_eq_none_of_forall _ _ hall
    constructor
    · intro d hd
      constructor
      · intro i hi v hv hprev
        have h2 : firstHit ltpCandidates d = some v :=
          findSome?_eq_of_get _ _ i hi v hv hprev
        simp [extract_ltp_from_tick, h0, hd, h2]
      · intro hall2
        have h2 : firstHit ltpCandidates d = none :=
          findSome?_eq_none_of_forall _ _ hall2
        simp [extract_ltp_from_tick, h0, hd, h2]
    · intro hnd
      simp only [extract_ltp_from_tick, h0]
      cases hpd : pyGet tick "data" with
      | none => rfl
      | some v =>
        cases v with
        | vdict d => rw [hpd] at hnd; simp [PyVal.asDict] at hnd
        | vnone => rfl
        | vint n => rfl
        | vfloat q => rfl
        | vstr s => rfl

/-- Witness for `extractPrice_spec`: a top-level tick whose first non-null
alias is `"lastPrice"` (earlier aliases absent or null), and a nested tick
whose only price lives under `"data"`. -/
theorem extractPrice_spec_witness :
    extract_ltp_from_tick [("ltp", PyVal.vnone), ("lastPrice", PyVal.vint 10)] =
      some (PyVal.vint 10) ∧
    extract_ltp_from_tick
        [("data", PyVal.vdict [("ltp", PyVal.vstr "99.9")])] =
      some (PyVal.vstr "99.9") := by
  constructor
  · exact (extractPrice_spec _).1 3 (by norm_num [ltpCandidates]) _ rfl
      (fun j hj => by interval_cases j <;> rfl)
  · exact (((extractPrice_spec
        [("data", PyVal.vdict [("ltp", PyVal.vstr "99.9")])]).2
        (by intro k hk; fin_cases hk <;> rfl)).1
      [("ltp", PyVal.vstr "99.9")] rfl).1 1 (by norm_num [ltpCandidates])
      (PyVal.vstr "99.9") rfl
      (fun j hj => by interval_cases j; rfl)

lemma onTick_matched {cfg : Config} {nf : Except String Unit} {ts : String}
    {now : ℚ} {tick : Tick} {s : BotState} {sid d : String}
    (hsid : extractSid tick = some sid)
    (hd : findDisp cfg.resolvedMap sid = some d)
    (hne : ¬ d = "") :
    onTick cfg nf ts now tick s =
      maybeSend cfg nf ts now
        { s with latest :=
            dictSet s.latest d ⟨(extract_ltp_from_tick tick).getD .vnone, tick⟩ } := by
  simp [onTick, hsid, hd, hne]

lemma onTick_unmatched {cfg : Config} {nf : Except String Unit} {ts : String}
    {now : ℚ} {tick : Tick} {s : BotState} {sid : String}
    (hsid : extractSid tick = some sid)
    (hd : findDisp cfg.resolvedMap sid = none) :
    onTick cfg nf ts now tick s = (s, none, []) := by
  simp [onTick, hsid, hd]

lemma onTick_noSid {cfg : Config} {nf : Except String Unit} {ts : String}
    {now : ℚ} {tick : Tick} {s : BotState}
    (hsid : extractSid tick = none) :
    onTick cfg nf ts now tick s = (s, none, []) := by
  simp [onTick, hsid]

/-- A registry misconfigured with a duplicate id under two segments. -/
def rmDup : List (String × Info) :=
  [("A", ⟨some "NSE_INDEX", some "13"⟩), ("B", ⟨some "BSE_INDEX", some "13"⟩)]

/-- A tick supplying both an instrument id and a segment tag. -/
def tickSeg : Tick :=
  [("securityId", PyVal.vstr "13"), ("exchangeSegment", PyVal.vstr "BSE_INDEX")]

/-- Claim C5 counterexample: `tickSeg` supplies id `"13"` and segment tag
`"BSE_INDEX"`.  An exact-match segment filter would select entry `"B"`
(segment `BSE_INDEX`); the callback instead matches the first id-equal
entry `"A"`, whose segment is `NSE_INDEX`, and updates the store under
`"A"` — the supplied segment is never consulted. -/
theorem segment_filter_ignored :
    extractSid tickSeg = some "13" ∧
    pyGet tickSeg "exchangeSegment" = some (PyVal.vstr "BSE_INDEX") ∧
    findDisp rmDup "13" = some "A" ∧
    (rmDup.find? (fun p => p.2.sid == some "13")).map (fun p => p.2.seg) =
      some (some "NSE_INDEX") ∧
    (onTick ⟨60, true, rmDup⟩ (Except.ok ()) "ts" 100 tickSeg ⟨[], 0⟩).1.latest.map
        Prod.fst = ["A"] := by
  refine ⟨rfl, rfl, rfl, rfl, ?_⟩
  have h := @onTick_matched ⟨60, true, rmDup⟩ (Except.ok ()) "ts" 100 tickSeg
    ⟨[], 0⟩ "13" "A" rfl rfl (by decide)
  rw [h, maybeSend_latest]
  rfl

/-- Claim C5 as amended: the match is id-only — the scan compares only each
entry's `sid` against the extracted id, so any segment carried by the tick
is ignored; it is a linear scan in the registry's insertion order, the
first-inserted entry wins on duplicate ids, and it returns absent when no
entry's id matches. -/
theorem match_first_id (rm : List (String × Info)) (sid : String) :
    (∀ (i : ℕ) (hi : i < rm.length),
      (rm.get ⟨i, hi⟩).2.sid = some sid →
      (∀ (j : ℕ) (hj : j < i), (rm.get ⟨j, lt_trans hj hi⟩).2.sid ≠ some sid) →
      findDisp rm sid = some (rm.get ⟨i, hi⟩).1) ∧
    ((∀ p ∈ rm, p.2.sid ≠ some sid) → findDisp rm sid = none) := by
  constructor
  · intro i hi hv hprev
    have h1 : rm.find? (fun p => p.2.sid == some sid) = some (rm.get ⟨i, hi⟩) := by
      apply find?_eq_of_get
      · simpa using hv
      · intro j hj
        simpa using hprev j hj
    unfold findDisp
    rw [h1]
    rfl
  · intro hall
    unfold findDisp
    rw [find?_eq_none_of_forall _ _ (fun p hp => by simpa using hall p hp)]
    rfl

/-- Witness for `match_first_id`: in the program's registry, id `"25"`
matches the entry `"NIFTY BANK"` (index 1, no earlier entry has that id);
id `"9999"` matches nothing. -/
theorem match_first_id_witness :
    findDisp theRegistry "25" = some "NIFTY BANK" ∧
    findDisp theRegistry "9999" = none := by
  constructor
  · have hlen : 1 < theRegistry.length := by decide
    have h0 : (theRegistry.get ⟨0, by decide⟩).2.sid ≠ some "25" := by decide
    exact (match_first_id theRegistry "25").1 1 hlen rfl
      (fun j hj => by interval_cases j; exact h0)
  · exact (match_first_id theRegistry "9999").2 (by decide)

/-- Claim C6 (confirmed): a tick from which no identity can be extracted, or
whose extracted id matches no registry entry, leaves the state (the
latest-value store and the throttle clock) unchanged, hands nothing to
the Notifier, and logs nothing. -/
theorem unmatched_tick_noop (cfg : Config) (nf : Except String Unit)
    (ts : String) (now : ℚ) (tick : Tick) (s : BotState)
    (h : ∀ sid, extractSid tick = some sid → findDisp cfg.resolvedMap sid = none) :
    onTick cfg nf ts now tick s = (s, none, []) := by
  cases hs : extractSid tick with
  | none => exact onTick_noSid hs
  | some sid => exact onTick_unmatched hs (h sid hs)

/-- Witness for `unmatched_tick_noop`: scenario 2 of the spec — the tick
`{"securityId":"9999","lastPrice":10}` against the program's registry. -/
theorem unmatched_tick_noop_witness :
    onTick ⟨60, true, theRegistry⟩ (Except.ok ()) "ts" 100
      [("securityId", PyVal.vstr "9999"), ("lastPrice", PyVal.vint 10)] ⟨[], 0⟩ =
      (⟨[], 0⟩, none, []) := by
  apply unmatched_tick_noop
  intro sid hs
  have h9 : extractSid
      [("securityId", PyVal.vstr "9999"), ("lastPrice", PyVal.vint 10)] =
      some "9999" := rfl
  rw [h9] at hs
  cases hs
  decide

/-- Claim C7 counterexample: a symbol the registry never resolved renders
with an *empty* segment — `"TCS (): (No Data)"` — not with `"(?)"` as the
spec claims (`info.get("seg") or ""` yields `""` for a `None` segment). -/
theorem unresolved_renders_empty_segment :
    resolveEntry ⟨INDICES_NSE, INDICES_BSE, [("TATAMOTORS", "3456")]⟩
      "TCS" "nifty50" = ⟨none, none⟩ ∧
    renderLine [] "TCS" ⟨none, none⟩ = "TCS (): (No Data)" ∧
    renderLine [] "TCS" ⟨none, none⟩ ≠ "TCS (?): (No Data)" :=
  ⟨rfl, rfl, by decide⟩

/-- Claim C7 as amended: the snapshot body carries one line per tracked
symbol in the registry's declared order; a symbol whose stored price
converts under `float()` renders it to two decimal places; a stored
non-null price on which `float()` raises renders in its raw string form;
a symbol with no observation, or whose stored price is null, renders
`"(No Data)"`; and an unresolved symbol's segment renders as the empty
string — `"{name} (): ..."` — not as `"?"`. -/
theorem render_spec (latest : List (String × LatestEntry)) (name : String)
    (info : Info) :
    (∀ val q, getEntry latest name = some val → val.ltp.pyFloat = some q →
        renderLine latest name info =
          name ++ " (" ++ segStr info ++ "): " ++ fmt2 q) ∧
    (∀ val, getEntry latest name = some val → val.ltp.isNone = false →
        val.ltp.pyFloat = none →
        renderLine latest name info =
          name ++ " (" ++ segStr info ++ "): " ++ val.ltp.pyStr) ∧
    (getEntry latest name = none →
        renderLine latest name info = name ++ " (" ++ segStr info ++ "): (No Data)") ∧
    (∀ val, getEntry latest name = some val → val.ltp.isNone = true →
        renderLine latest name info = name ++ " (" ++ segStr info ++ "): (No Data)") ∧
    (info.seg = none → segStr info = "") ∧
    (∀ (ts : String) (rm : List (String × Info)),
        renderText ts rm latest =
          String.intercalate "\n"
            (("LTP Update â€¢ " ++ ts) :: rm.map (fun p => renderLine latest p.1 p.2)) ∧
        (rm.map (fun p => renderLine latest p.1 p.2)).length = rm.length) := by
  refine ⟨?_, ?_, ?_, ?_, ?_, ?_⟩
  · intro val q hval hq
    have hn : val.ltp.isNone = false := by
      cases hv : val.ltp with
      | vnone => rw [hv] at hq; simp [PyVal.pyFloat] at hq
      | vint n => rfl
      | vfloat q2 => rfl
      | vstr s2 => rfl
      | vdict d2 => rfl
    simp [renderLine, hval, hn, hq]
  · intro val hval hn hq
    simp [renderLine, hval, hn, hq]
  · intro h
    simp [renderLine, h]
  · intro val hval hn
    simp [renderLine, hval, hn]
  · intro h
    simp [segStr, h]
  · intro ts rm
    exact ⟨rfl, by simp⟩

/-- Witness for `render_spec`: the raw-string, no-observation, and
null-price render cases at concrete inputs. -/
theorem render_spec_witness :
    renderLine [("X", ⟨PyVal.vstr "hello", []⟩)] "X" ⟨some "NSE_EQ", some "1"⟩ =
      "X (NSE_EQ): hello" ∧
    renderLine [] "NIFTY 50" ⟨some "NSE_INDEX", some "13"⟩ =
      "NIFTY 50 (NSE_INDEX): (No Data)" ∧
    renderLine [("Y", ⟨PyVal.vnone, []⟩)] "Y" ⟨some "NSE_EQ", some "2"⟩ =
      "Y (NSE_EQ): (No Data)" := by
  refine ⟨?_, ?_, ?_⟩
  · exact ((render_spec [("X", ⟨PyVal.vstr "hello", []⟩)] "X"
      ⟨some "NSE_EQ", some "1"⟩).2.1 ⟨PyVal.vstr "hello", []⟩ rfl rfl rfl).trans rfl
  · exact ((render_spec [] "NIFTY 50" ⟨some "NSE_INDEX", some "13"⟩).2.2.1
      rfl).trans rfl
  · exact ((render_spec [("Y", ⟨PyVal.vnone, []⟩)] "Y"
      ⟨some "NSE_EQ", some "2"⟩).2.2.2.1 ⟨PyVal.vnone, []⟩ rfl rfl).trans rfl

/-- Claim C8 (confirmed): the resolver emits one registry entry per tracked
symbol in declared order; a display name present in its declared
category's table (with the nonempty id every real instrument-id has)
resolves to that category's segment tag and the table's id; a name absent
from its table yields the unresolved entry with null segment and id; the
function is total, so a missing entry never raises. -/
theorem resolve_spec (tables : Tables) (syms : List (String × String)) :
    ((resolve_symbols_list tables syms).2.1 =
      syms.map (fun p => (p.1, resolveEntry tables p.1 p.2))) ∧
    (∀ name sid, tblGet tables.indices_nse name = some sid → sid ≠ "" →
        resolveEntry tables name "indices_nse" = ⟨some "NSE_INDEX", some sid⟩) ∧
    (∀ name, tblGet tables.indices_nse name = none →
        resolveEntry tables name "indices_nse" = ⟨none, none⟩) ∧
    (∀ name sid, tblGet tables.indices_bse name = some sid → sid ≠ "" →
        resolveEntry tables name "indices_bse" = ⟨some "BSE_INDEX", some sid⟩) ∧
    (∀ name, tblGet tables.indices_bse name = none →
        resolveEntry tables name "indices_bse" = ⟨none, none⟩) ∧
    (∀ name kind sid, kind ≠ "indices_nse" → kind ≠ "indices_bse" →
        tblGet tables.nifty50 name = some sid → sid ≠ "" →
        resolveEntry tables name kind = ⟨some "NSE_EQ", some sid⟩) ∧
    (∀ name kind, kind ≠ "indices_nse" → kind ≠ "indices_bse" →
        tblGet tables.nifty50 name = none →
        resolveEntry tables name kind = ⟨none, none⟩) := by
  refine ⟨?_, ?_, ?_, ?_, ?_, ?_, ?_⟩
  · induction syms with
    | nil => rfl
    | cons p rest ih =>
      obtain ⟨name, kind⟩ := p
      simp only [resolve_symbols_list, List.map_cons]
      cases hr : resolveOne tables name kind with
      | mk sido seg =>
        cases sido with
        | none => simp [resolveEntry, hr, ih]
        | some sid =>
          by_cases hs : sid = ""
          · simp [resolveEntry, hr, hs, ih]
          · simp [resolveEntry, hr, hs, ih]
  · intro name sid h hne
    simp [resolveEntry, resolveOne, h, hne]
  · intro name h
    simp [resolveEntry, resolveOne, h]
  · intro name sid h hne
    simp [resolveEntry, resolveOne, h, hne]
  · intro name h
    simp [resolveEntry, resolveOne, h]
  · intro name kind sid h1 h2 h hne
    simp [resolveEntry, resolveOne, h1, h2, h, hne]
  · intro name kind h1 h2 h
    simp [resolveEntry, resolveOne, h1, h2, h]

/-- Witness for `resolve_spec`: `"NIFTY 50"` resolves against the
program's tables; a name missing from the equity table yields the
unresolved entry; the program's full registry is the per-symbol map. -/
theorem resolve_spec_witness :
    resolveEntry theTables "NIFTY 50" "indices_nse" =
      ⟨some "NSE_INDEX", some "13"⟩ ∧
    resolveEntry theTables "INFY" "nifty50" = ⟨none, none⟩ ∧
    (resolve_symbols_list theTables SYMBOLS).2.1 =
      SYMBOLS.map (fun p => (p.1, resolveEntry theTables p.1 p.2)) := by
  refine ⟨?_, ?_, (resolve_spec theTables SYMBOLS).1⟩
  · exact (resolve_spec theTables []).2.1 "NIFTY 50" "13" rfl (by decide)
  · exact (resolve_spec theTables []).2.2.2.2.2.2 "INFY" "nifty50"
      (by decide) (by decide) rfl

/-- Claim C10 (confirmed): a tick that matches a tracked symbol but carries
no extractable price still overwrites that symbol's store entry — the
stored price becomes null and the raw tick is kept — so a subsequent
render of that symbol shows `"(No Data)"` until a priced tick arrives. -/
theorem priceless_tick_overwrites (cfg : Config) (nf : Except String Unit)
    (ts : String) (now : ℚ) (tick : Tick) (s : BotState) (sid d : String)
    (hsid : extractSid tick = some sid)
    (hd : findDisp cfg.resolvedMap sid = some d)
    (hne : ¬ d = "")
    (hltp : extract_ltp_from_tick tick = none) :
    getEntry (onTick cfg nf ts now tick s).1.latest d =
      some ⟨PyVal.vnone, tick⟩ ∧
    ∀ info, renderLine (onTick cfg nf ts now tick s).1.latest d info =
      d ++ " (" ++ segStr info ++ "): (No Data)" := by
  have h1 : (onTick cfg nf ts now tick s).1.latest =
      dictSet s.latest d ⟨PyVal.vnone, tick⟩ := by
    rw [onTick_matched hsid hd hne, maybeSend_latest, hltp]
    rfl
  constructor
  · rw [h1]
    exact getEntry_dictSet_self _ _ _
  · intro info
    rw [h1]
    have h2 := getEntry_dictSet_self s.latest d ⟨PyVal.vnone, tick⟩
    simp [renderLine, h2, PyVal.isNone]

/-- Witness for `priceless_tick_overwrites`: the priceless tick
`{"securityId":"13"}` overwrites a previously priced `"NIFTY 50"` entry
with a null price, and the symbol then renders `"(No Data)"`. -/
theorem priceless_tick_overwrites_witness :
    getEntry (onTick ⟨60, true, theRegistry⟩ (Except.ok ()) "ts" 100
        [("securityId", PyVal.vstr "13")]
        ⟨[("NIFTY 50", ⟨PyVal.vint 24500, []⟩)], 0⟩).1.latest "NIFTY 50" =
      some ⟨PyVal.vnone, [("securityId", PyVal.vstr "13")]⟩ ∧
    renderLine (onTick ⟨60, true, theRegistry⟩ (Except.ok ()) "ts" 100
        [("securityId", PyVal.vstr "13")]
        ⟨[("NIFTY 50", ⟨PyVal.vint 24500, []⟩)], 0⟩).1.latest "NIFTY 50"
        ⟨some "NSE_INDEX", some "13"⟩ =
      "NIFTY 50 (NSE_INDEX): (No Data)" := by
  constructor
  · exact (priceless_tick_overwrites ⟨60, true, theRegistry⟩ (Except.ok ()) "ts" 100
      [("securityId", PyVal.vstr "13")] ⟨[("NIFTY 50", ⟨PyVal.vint 24500, []⟩)], 0⟩
      "13" "NIFTY 50" rfl rfl (by decide) rfl).1
  · exact ((priceless_tick_overwrites ⟨60, true, theRegistry⟩ (Except.ok ()) "ts" 100
      [("securityId", PyVal.vstr "13")] ⟨[("NIFTY 50", ⟨PyVal.vint 24500, []⟩)], 0⟩
      "13" "NIFTY 50" rfl rfl (by decide) rfl).2
      ⟨some "NSE_INDEX", some "13"⟩).trans rfl

end DhanBot
